import Mathlib

/-!
Shallow embedding of the evoware/py core: `evoware/plates.py` (class
`PlateFormat`) and `evoware/worklist.py` (class `Worklist`), together with
theorems checking the natural-language specification against this code.

Conventions of the embedding:
* Python `int` is `Int`; Python `%` on a positive modulus is `Int.emod`
  (Lean's `%` on `Int`), Python `int(x / y)` on exact small integer floats is
  truncation toward zero (`Int.tdiv`), and Python `math.ceil(x / y)` is exact
  ceiling division (floats are exact at the magnitudes used by this code).
* Fallible code returns `Except PyErr` or pairs an `Option PyErr` with the
  output emitted before the failure.
* The worklist buffer is the list of strings passed to `self._out.write`, in
  order; each operation is embedded as the list of chunks it writes.
-/

namespace Evoware

/-- Python-level runtime errors that the embedded code can raise.
`plateError` is `plates.PlateError`, `worklistError` is
`worklist.WorklistException`; the others are Python builtins.
`nonTermination` marks fuel exhaustion of a loop that Python would not exit. -/
inductive PyErr where
  | plateError
  | worklistError
  | typeError
  | indexError
  | zeroDivisionError
  | assertionError
  | nonTermination
deriving DecidableEq

/-- ASCII letter test, as the regex class `[A-Za-z]`. -/
def isAsciiLetter (c : Char) : Bool :=
  (('A' ≤ c) && (c ≤ 'Z')) || (('a' ≤ c) && (c ≤ 'z'))

/-- ASCII digit test, as the regex class `[0-9]`. -/
def isDigitCh (c : Char) : Bool :=
  ('0' ≤ c) && (c ≤ '9')

/-- Python `str.upper` on a single ASCII character. -/
def pyUpper (c : Char) : Char :=
  if ('a' ≤ c) && (c ≤ 'z') then Char.ofNat (c.toNat - 32) else c

/-- Value of a run of ASCII digits, as Python `int(...)` on a digit string. -/
def digitsToNat (cs : List Char) : Nat :=
  cs.foldl (fun acc c => acc * 10 + (c.toNat - 48)) 0

/-- Decimal digit characters of a positive natural, most significant first.
The first argument is recursion fuel (`n + 1` always suffices). -/
def natDigitsAux : Nat → Nat → List Char
  | 0, _ => []
  | fuel + 1, n =>
      if n = 0 then []
      else natDigitsAux fuel (n / 10) ++ [Char.ofNat (48 + n % 10)]

/-- Python `str` of a nonnegative integer. -/
def pyStrNat (n : Nat) : String :=
  if n = 0 then "0" else String.mk (natDigitsAux (n + 1) n)

/-- Python `str` of an integer. -/
def pyStrInt (i : Int) : String :=
  if i < 0 then "-" ++ pyStrNat (-i).toNat else pyStrNat i.toNat

/-- Newton iteration for the integer square root: decreasing from `x`,
stopping at the fixed point. The first argument is fuel; the iteration
stops on its own well before the fuel runs out. -/
def newtonSqrtAux (m : Nat) : Nat → Nat → Nat
  | 0, x => x
  | fuel + 1, x =>
      let y := (x + m / x) / 2
      if y < x then newtonSqrtAux m fuel y else x

/-- Exact floor of the square root (used only at construction time). -/
def isqrt (m : Nat) : Nat :=
  if m = 0 then 0 else newtonSqrtAux m m m

/-- Nearest integer to the real square root of `m` (a tie is impossible:
`√m` is either an integer or irrational). Models Python
`round(np.sqrt(m))` at the magnitudes used here. -/
def roundSqrt (m : Nat) : Nat :=
  let s := isqrt m
  if 2 * s * s + 2 * s + 1 < 2 * m then s + 1 else s

/-- Python `round(a / b)` on exact nonnegative integer floats: nearest
integer, ties to even (banker's rounding). -/
def roundDiv (a b : Nat) : Nat :=
  let q := a / b
  let r := a % b
  if b < 2 * r then q + 1
  else if 2 * r < b then q
  else if q % 2 = 0 then q else q + 1

/-- Ceiling division of an integer by a positive integer; models Python
`math.ceil(float(a) / b)` at the magnitudes used here. -/
def ceilDiv (a : Int) (b : Int) : Int :=
  Int.fdiv (a + b - 1) b

/-- Python `s[i]` on a list of characters, with negative indices counting
from the end and `IndexError` (here `none`) when out of range. -/
def pyIndex (l : List Char) (i : Int) : Option Char :=
  if 0 ≤ i then l.get? i.toNat
  else if (-i).toNat ≤ l.length then l.get? (l.length - (-i).toNat)
  else none

/-- The 26 uppercase ASCII letters, `string.ascii_uppercase`. -/
def asciiUppercase : List Char :=
  "ABCDEFGHIJKLMNOPQRSTUVWXYZ".data

/-- Plate geometry: total well count `n`, columns `nx`, rows `ny`
(class `PlateFormat`, attributes set in `__init__`). -/
structure PlateFormat where
  n : Nat
  nx : Nat
  ny : Nat
deriving DecidableEq

/-- Embeds `PlateFormat.__init__(n, nx, ny)`. Python treats `nx=0`/`ny=0`
like an omitted argument (`nx or ...` is falsy on `0`); the default `nx` is
`round(sqrt(3/2 * n))` and the default `ny` is `round(n / nx)`; a division
by `nx = 0` raises `ZeroDivisionError`; a mismatch `nx * ny != n` raises
`PlateError`. `3 * n / 2` is exact for the even well counts this code
supports. -/
def PlateFormat.make (n : Nat) (nxOpt nyOpt : Option Nat) : Except PyErr PlateFormat :=
  let nx : Nat :=
    match nxOpt with
    | some v => if v = 0 then roundSqrt (3 * n / 2) else v
    | none => roundSqrt (3 * n / 2)
  let nyGiven : Bool :=
    match nyOpt with
    | some v => v ≠ 0
    | none => false
  if nx = 0 && !nyGiven then .error .zeroDivisionError
  else
    let ny : Nat :=
      match nyOpt with
      | some v => if v = 0 then roundDiv n nx else v
      | none => roundDiv n nx
    if nx * ny ≠ n then .error .plateError
    else .ok ⟨n, nx, ny⟩

/-- Prefix match of the class regex `([A-Za-z]{0,1})([0-9]+)` as performed by
`re.match`: anchored at the start only; the optional letter is taken
greedily but given back if no digit follows; the digit group is the maximal
leading digit run. Returns the letter (if any) and the digit characters. -/
def matchPosition (cs : List Char) : Option (Option Char × List Char) :=
  match cs with
  | [] => none
  | c :: rest =>
      if isAsciiLetter c then
        let ds := rest.takeWhile isDigitCh
        if ds.isEmpty then none else some (some c, ds)
      else
        let ds := (c :: rest).takeWhile isDigitCh
        if ds.isEmpty then none else some (none, ds)

/-- Embeds `PlateFormat.str2tuple`: normalize a position string to
`(uppercase letter or '', number or None)`. -/
def str2tuple (s : String) : String × Option Nat :=
  match matchPosition s.data with
  | none => ("", none)
  | some (oc, ds) =>
      match oc with
      | some c => (String.mk [pyUpper c], some (digitsToNat ds))
      | none => ("", some (digitsToNat ds))

/-- Python value accepted by `human2int`: an `int` or a `str`
(the `float` branch behaves as its `int` truncation). -/
inductive PyPos where
  | int (i : Int)
  | str (s : String)

/-- Embeds `string.ascii_uppercase.find(letter) + 0`-style lookup used in
`human2int`: the index of a single uppercase letter, `-1` when absent.
`human2int` only reaches this with a nonempty match group, which is a
single character. -/
def asciiUpperFind (l : String) : Int :=
  match l.data with
  | [c] => if (('A' ≤ c) && (c ≤ 'Z')) then ((c.toNat : Int) - 65) else -1
  | _ => -1

/-- Embeds `PlateFormat.human2int`: convert an input position to Tecan
numbering. With a letter, `r = (number - 1) * ny + (find(letter) + 1)`;
without, `r = number` verbatim; a failed string match leaves `number =
None` and the comparison `None > n` raises `TypeError` (Python 3);
`r > n` and `r == 0` raise `PlateError`. -/
def human2int (f : PlateFormat) (pos : PyPos) : Except PyErr Int :=
  let parsed : String × Option Int :=
    match pos with
    | .int i => ("", some i)
    | .str s =>
        let lr := str2tuple s
        (lr.1, lr.2.map (fun m => (m : Int)))
  match parsed.2 with
  | none => .error .typeError
  | some number =>
      let r : Int :=
        if parsed.1 ≠ "" then
          let row := asciiUpperFind parsed.1 + 1
          (number - 1) * (f.ny : Int) + row
        else number
      if r > (f.n : Int) then .error .plateError
      else if r = 0 then .error .plateError
      else .ok r

/-- Embeds `PlateFormat.int2human`: convert a Tecan well position to a
human-readable coordinate. `col = int((pos-1) / ny)` truncates toward
zero, `row = (pos-1) % ny` is Python's nonnegative modulo; the guard
raises `PlateError` when `col+1 > nx` or `row > ny`; the letter lookup
`ascii_uppercase[row]` raises `IndexError` when `row ≥ 26`. -/
def int2human (f : PlateFormat) (pos : Int) : Except PyErr String :=
  let col := Int.tdiv (pos - 1) (f.ny : Int)
  let row := (pos - 1) % (f.ny : Int)
  if col + 1 > (f.nx : Int) || row > (f.ny : Int) then .error .plateError
  else
    match pyIndex asciiUppercase row with
    | none => .error .indexError
    | some ch => .ok (String.mk [ch] ++ pyStrInt (col + 1))

/-- Embeds `PlateFormat.gridindex2int`: 0-based `(row, col)` to 1-based
linear position, `col * ny + row + 1`. -/
def gridindex2int (f : PlateFormat) (row col : Int) : Int :=
  col * (f.ny : Int) + row + 1

/-- Embeds `PlateFormat.int2gridindex`: `col = ceil(pos / ny) - 1`;
`row = (pos % ny) - 1`, except that when `pos % ny == 0` the code sets
`row = 7` (a literal constant, not `ny - 1`). -/
def int2gridindex (f : PlateFormat) (cellInt : Int) : Int × Int :=
  let col := ceilDiv cellInt (f.ny : Int) - 1
  let rowModulus := cellInt % (f.ny : Int)
  let row : Int := if rowModulus = 0 then 7 else rowModulus - 1
  (row, col)

/-! ## Worklist (evoware/worklist.py) -/

/-- Python `';'.join(l)`. -/
def pyJoin (sep : String) : List String → String
  | [] => ""
  | [x] => x
  | x :: y :: t => x ++ sep ++ pyJoin sep (y :: t)

/-- Number of line-break characters in a string. -/
def countNL (s : String) : Nat :=
  s.data.count '\n'

/-- The list of chunks an operation passed to `self._out.write`, in order,
paired with the exception (if any) that aborted it. -/
abbrev PyOut := List String × Option PyErr

/-- Worklist state relevant to the embedded operations: the default liquid
class and the `rows` attribute (8 for the default 96-well plate format). -/
structure Worklist where
  defaultLiquidClass : Option String
  rows : Nat

/-- A freshly constructed `Worklist()` with no default liquid class:
96-well format, `rows = 8`. -/
def Worklist.default96 : Worklist :=
  ⟨none, 8⟩

/-- Liquid-class resolution of `Worklist._transfer_op`: the argument if
given, else the worklist default, else the empty string. -/
def resolveLC (w : Worklist) (liquidClass : Option String) : String :=
  match liquidClass with
  | some s => s
  | none =>
      match w.defaultLiquidClass with
      | some s => s
      | none => ""

/-- Embeds `Worklist._transfer_op`: raises `WorklistException` when neither
`rackLabel` nor `rackID` is given; otherwise resolves the liquid class
(argument, else worklist default, else `''`), builds the field list
`[rackLabel, rackID, rackType, position, tubeID, volume, liquidClass,
tipMask]`, drops the last field when `tipMask` is `None`, and returns the
semicolon-joined line terminated by a line break. -/
def transferOp (w : Worklist) (transferType : String)
    (rackLabel rackID rackType : String) (position : Int) (tubeID : String)
    (volume : Int) (liquidClass : Option String) (tipMask : Option Int) :
    Except PyErr String :=
  if rackLabel = "" ∧ rackID = "" then .error .worklistError
  else
    let lc : String := resolveLC w liquidClass
    let base := [rackLabel, rackID, rackType, pyStrInt position, tubeID,
                 pyStrInt volume, lc]
    let fields :=
      match tipMask with
      | some tm => base ++ [pyStrInt tm]
      | none => base
    .ok (pyJoin ";" (transferType :: fields) ++ "\n")

/-- Embeds `Worklist.aspirate`: a single aspirate line. Note the source
passes its own `rackID` into `_transfer_op`'s `rackLabel` slot and its
`rackLabel` into the `rackID` slot (`self._transfer_op('A', rackID,
rackLabel, ...)`). -/
def Worklist.aspirate (w : Worklist) (rackLabel rackID rackType : String)
    (position : Int) (tubeID : String) (volume : Int)
    (liquidClass : Option String) (tipMask : Option Int) : PyOut :=
  match transferOp w "A" rackID rackLabel rackType position tubeID volume
      liquidClass tipMask with
  | .ok line => ([line], none)
  | .error e => ([], some e)

/-- Embeds `Worklist.dispense`: a single dispense line with the same
`rackID`/`rackLabel` swap as `aspirate`, followed by a standalone `W;`
line when `wash` is true. -/
def Worklist.dispense (w : Worklist) (rackLabel rackID rackType : String)
    (position : Int) (tubeID : String) (volume : Int)
    (liquidClass : Option String) (tipMask : Option Int) (wash : Bool) :
    PyOut :=
  match transferOp w "D" rackID rackLabel rackType position tubeID volume
      liquidClass tipMask with
  | .ok line => (if wash then [line, "W;\n"] else [line], none)
  | .error e => ([], some e)

/-- Embeds `Worklist.write`: the source calls `line.replace('\n', '')` and
`line.replace('\r', '')`, but Python `str.replace` returns a new string
and both results are discarded, so the emitted chunk is the input line
unmodified plus a line break. -/
def Worklist.write (line : String) : List String :=
  [line ++ "\n"]

/-- Embeds `Worklist.wash`: the `W;` line. -/
def Worklist.washOp : List String :=
  ["W;\n"]

/-- Embeds `Worklist.flush`: the `F;` line. -/
def Worklist.flushOp : List String :=
  ["F;\n"]

/-- Loop body of `Worklist.transferColumn`: `remaining` iterations left,
`i` the Python loop variable. Each iteration emits one aspirate and one
dispense (plus `W;` when washing); an exception propagates, keeping the
chunks already written. After the loop Python returns the final loop
variable `i` (`rows - 1`). -/
def tcAux (w : Worklist) (srcID dstID : String) (posSrc posDst : Int)
    (volume : Int) (liquidClass : Option String) (tipMask : Option Int)
    (wash : Bool) : Nat → Nat → List String × Except PyErr Int
  | i, 0 => ([], .ok ((i : Int) - 1))
  | i, remaining + 1 =>
      let a := w.aspirate "" srcID "" (posSrc + (i : Int)) "" volume
        liquidClass tipMask
      match a.2 with
      | some e => (a.1, .error e)
      | none =>
          let d := w.dispense "" dstID "" (posDst + (i : Int)) "" volume
            liquidClass tipMask wash
          match d.2 with
          | some e => (a.1 ++ d.1, .error e)
          | none =>
              let rest := tcAux w srcID dstID posSrc posDst volume
                liquidClass tipMask wash (i + 1) remaining
              (a.1 ++ d.1 ++ rest.1, rest.2)

/-- Embeds `Worklist.transferColumn`: aspirate and dispense commands for a
whole plate column, starting at `pos = (col - 1) * rows + 1`; returns the
chunks written and the Python return value (the loop variable's final
value). The source's `byLabel` parameter is unused by the method body and
is omitted. -/
def Worklist.transferColumn (w : Worklist) (srcID : String) (srcCol : Int)
    (dstID : String) (dstCol : Int) (volume : Int)
    (liquidClass : Option String) (tipMask : Option Int) (wash : Bool) :
    List String × Except PyErr Int :=
  let posSrc := (srcCol - 1) * (w.rows : Int) + 1
  let posDst := (dstCol - 1) * (w.rows : Int) + 1
  tcAux w srcID dstID posSrc posDst volume liquidClass tipMask wash 0 w.rows

/-- Inner dispense loop of `Worklist.multidiswithflush`: pop `k` wells from
the end of the (already reversed) destination list and dispense into each
with `wash=False`. Returns the chunks, the remaining list, and any
exception. Popping an empty list raises `IndexError` (unreachable behind
the assert). -/
def mdDispense (w : Worklist) (dstLabel : String) (volume : Int)
    (liquidClass : Option String) (tipMask : Option Int) :
    Nat → List Int → List String × List Int × Option PyErr
  | 0, stack => ([], stack, none)
  | k + 1, stack =>
      match stack.getLast? with
      | none => ([], [], some .indexError)
      | some well =>
          let stack2 := stack.dropLast
          let d := w.dispense dstLabel "" "" well "" volume liquidClass
            tipMask false
          match d.2 with
          | some e => (d.1, stack2, some e)
          | none =>
              let rest := mdDispense w dstLabel volume liquidClass tipMask
                k stack2
              (d.1 ++ rest.1, rest.2.1, rest.2.2)

/-- Outer `while totalVolume > 0` loop of `Worklist.multidiswithflush`.
`fuel` bounds the iterations; Python loops forever when the reduced tip
volume is not positive, which `fuel = 0` reports as `nonTermination`.
Each cycle aspirates `min(totalVolume, tipVolume)`, asserts that the
dispense count fits the remaining destinations, dispenses, and emits `F;`
between cycles when flushing; after the loop a `W;` is emitted when
washing. -/
def mdLoop (w : Worklist) (srcLabel : String) (srcPos : Int)
    (dstLabel : String) (volume tipVolume : Int)
    (liquidClass : Option String) (tipMask : Option Int)
    (wash flushTips : Bool) :
    Nat → Int → List Int → List String × Option PyErr
  | fuel, totalVolume, stack =>
      if totalVolume ≤ 0 then (if wash then ["W;\n"] else [], none)
      else
        match fuel with
        | 0 => ([], some .nonTermination)
        | fuel + 1 =>
            let aspVolume :=
              if totalVolume ≤ tipVolume then totalVolume else tipVolume
            let a := w.aspirate srcLabel "" "" srcPos "" aspVolume
              liquidClass tipMask
            match a.2 with
            | some e => (a.1, some e)
            | none =>
                let nNext := (Int.tdiv aspVolume volume).toNat
                if stack.length < nNext then (a.1, some .assertionError)
                else
                  let d := mdDispense w dstLabel volume liquidClass tipMask
                    nNext stack
                  match d.2.2 with
                  | some e => (a.1 ++ d.1, some e)
                  | none =>
                      let totalVolume2 := totalVolume - aspVolume
                      let fl :=
                        if 0 < totalVolume2 ∧ flushTips then ["F;\n"] else []
                      let rest := mdLoop w srcLabel srcPos dstLabel volume
                        tipVolume liquidClass tipMask wash flushTips fuel
                        totalVolume2 d.2.1
                      (a.1 ++ d.1 ++ fl ++ rest.1, rest.2)

/-- Embeds `Worklist.multidiswithflush`: computes `totalVolume = volume *
len(dstPos)`, reduces the tip volume to the nearest multiple of `volume`
(`tipVolume % volume` raises `ZeroDivisionError` when `volume == 0`,
before anything is written), reverses the destination list, and runs the
dispense cycles. -/
def Worklist.multidiswithflush (w : Worklist) (srcLabel : String)
    (srcPos : Int) (dstLabel : String) (dstPos : List Int)
    (volume tipVolume : Int) (liquidClass : Option String)
    (tipMask : Option Int) (wash flushTips : Bool) : PyOut :=
  let nDispense := dstPos.length
  let totalVolume := volume * (nDispense : Int)
  if volume = 0 then ([], some .zeroDivisionError)
  else
    let tipVolume2 := tipVolume - tipVolume % volume
    mdLoop w srcLabel srcPos dstLabel volume tipVolume2 liquidClass tipMask
      wash flushTips (totalVolume.toNat + 1) totalVolume dstPos.reverse

/-! ## Derived definitions used by the theorems -/

deriving instance DecidableEq for Except

/-- The default 6-well format: 3 columns, 2 rows. -/
def fmt6 : PlateFormat := ⟨6, 3, 2⟩

/-- The default 12-well format: 4 columns, 3 rows. -/
def fmt12 : PlateFormat := ⟨12, 4, 3⟩

/-- The default 24-well format: 6 columns, 4 rows. -/
def fmt24 : PlateFormat := ⟨24, 6, 4⟩

/-- The default 96-well format: 12 columns, 8 rows. -/
def fmt96 : PlateFormat := ⟨96, 12, 8⟩

/-- The default 384-well format: 24 columns, 16 rows. -/
def fmt384 : PlateFormat := ⟨384, 24, 16⟩

/-- The default 1536-well format: 48 columns, 32 rows. -/
def fmt1536 : PlateFormat := ⟨1536, 48, 32⟩

/-- Whether `human2int (int2human p)` recovers `p` without an exception. -/
def roundTripOk (f : PlateFormat) (p : Nat) : Bool :=
  match int2human f (p : Int) with
  | .ok s =>
      match human2int f (.str s) with
      | .ok q => q == (p : Int)
      | .error _ => false
  | .error _ => false

/-- `roundTripOk` holds for every position in `[1, m]`. -/
def roundTripBelow (f : PlateFormat) : Nat → Bool
  | 0 => true
  | k + 1 => roundTripOk f (k + 1) && roundTripBelow f k

/-- Whether `gridindex2int (int2gridindex p)` recovers `p`. -/
def gridRoundTripOk (f : PlateFormat) (p : Int) : Bool :=
  gridindex2int f (int2gridindex f p).1 (int2gridindex f p).2 == p

/-- Modelled from the spec: whether a text matches the pattern
`[A-Za-z]?[0-9]+` as a whole (the spec reading of `parseHuman`). -/
def wholeMatch (s : String) : Bool :=
  match s.data with
  | [] => false
  | c :: rest =>
      if isAsciiLetter c then !rest.isEmpty && rest.all isDigitCh
      else (c :: rest).all isDigitCh

/-- Modelled from the spec as amended: whether a text begins with the
pattern `[A-Za-z]?[0-9]+`, i.e. starts with a digit, or with a letter
followed by a digit (the anchoring `re.match` actually performs). -/
def beginsWithPattern (s : String) : Bool :=
  match s.data with
  | [] => false
  | c :: rest =>
      if isAsciiLetter c then
        match rest with
        | [] => false
        | d :: _ => isDigitCh d
      else isDigitCh c

/-- Modelled from the spec: the result `parseHuman` must return on a fully
matching text — the uppercased letter (or the empty string) and the
parsed number. -/
def specParse (s : String) : String × Option Nat :=
  match s.data with
  | [] => ("", none)
  | c :: rest =>
      if isAsciiLetter c then (String.mk [pyUpper c], some (digitsToNat rest))
      else ("", some (digitsToNat (c :: rest)))

/-- The optional trailing tip-mask field of a transfer line. -/
def tipSuffix (tipMask : Option Int) : String :=
  match tipMask with
  | some m => ";" ++ pyStrInt m
  | none => ""

/-! ## Helper lemmas -/

theorem countNL_append (s t : String) :
    countNL (s ++ t) = countNL s + countNL t := by
  simp [countNL, String.data_append, List.count_append]

theorem countNL_empty : countNL "" = 0 := by decide

theorem digitChar_ne_nl (m : Nat) (hm : m < 10) :
    Char.ofNat (48 + m) ≠ '\n' := by
  interval_cases m <;> decide

theorem count_nl_natDigitsAux (fuel n : Nat) :
    (natDigitsAux fuel n).count '\n' = 0 := by
  induction fuel generalizing n with
  | zero => simp [natDigitsAux]
  | succ fuel ih =>
      by_cases h : n = 0
      · simp [natDigitsAux, h]
      · have hd : Char.ofNat (48 + n % 10) ≠ '\n' :=
          digitChar_ne_nl (n % 10) (Nat.mod_lt n (by norm_num))
        simp [natDigitsAux, h, List.count_append, ih,
              List.count_singleton, hd]

theorem countNL_pyStrNat (n : Nat) : countNL (pyStrNat n) = 0 := by
  by_cases h : n = 0
  · simp [pyStrNat, h]; decide
  · simp [pyStrNat, h, countNL, count_nl_natDigitsAux]

theorem countNL_pyStrInt (i : Int) : countNL (pyStrInt i) = 0 := by
  by_cases h : i < 0
  · simp [pyStrInt, h, countNL_append, countNL_pyStrNat]
    decide
  · simp [pyStrInt, h, countNL_pyStrNat]

theorem countNL_pyJoin (sep : String) (hsep : countNL sep = 0) :
    ∀ l : List String, (∀ x ∈ l, countNL x = 0) →
      countNL (pyJoin sep l) = 0
  | [], _ => by simp [pyJoin]; decide
  | [x], h => by simpa [pyJoin] using h x (by simp)
  | x :: y :: t, h => by
      have h1 := h x (by simp)
      have h2 := countNL_pyJoin sep hsep (y :: t)
        (fun z hz => h z (by simp [hz]))
      simp [pyJoin, countNL_append, h1, h2, hsep]

theorem countNL_tipSuffix (tm : Option Int) : countNL (tipSuffix tm) = 0 := by
  cases tm with
  | none => simp [tipSuffix]; decide
  | some m =>
      have := countNL_pyStrInt m
      simp [tipSuffix, countNL_append, this]
      decide

theorem transferOp_line (w : Worklist) (tag : String) (rl ri rt : String)
    (p : Int) (tb : String) (v : Int) (lc : Option String) (tm : Option Int)
    (h : ¬(rl = "" ∧ ri = ""))
    (hrl : countNL rl = 0) (hri : countNL ri = 0) (hrt : countNL rt = 0)
    (htb : countNL tb = 0) (hlc : countNL (resolveLC w lc) = 0) :
    ∃ b, transferOp w tag rl ri rt p tb v lc tm =
        .ok (tag ++ ";" ++ b ++ "\n") ∧ countNL b = 0 := by
  cases tm with
  | none =>
      refine ⟨pyJoin ";" [rl, ri, rt, pyStrInt p, tb, pyStrInt v,
        resolveLC w lc], ?_, ?_⟩
      · simp [transferOp, h, pyJoin, String.append_assoc]
      · refine countNL_pyJoin ";" (by decide) _ ?_
        intro x hx
        simp at hx
        rcases hx with rfl | rfl | rfl | rfl | rfl | rfl | rfl <;>
          first
            | assumption
            | exact countNL_pyStrInt _
  | some m =>
      refine ⟨pyJoin ";" [rl, ri, rt, pyStrInt p, tb, pyStrInt v,
        resolveLC w lc, pyStrInt m], ?_, ?_⟩
      · simp [transferOp, h, pyJoin, String.append_assoc]
      · refine countNL_pyJoin ";" (by decide) _ ?_
        intro x hx
        simp at hx
        rcases hx with rfl | rfl | rfl | rfl | rfl | rfl | rfl | rfl <;>
          first
            | assumption
            | exact countNL_pyStrInt _

theorem roundTripBelow_spec (f : PlateFormat) (m : Nat)
    (h : roundTripBelow f m = true) :
    ∀ p, 1 ≤ p → p ≤ m → roundTripOk f p = true := by
  induction m with
  | zero => intro p h1 h2; omega
  | succ k ih =>
      intro p h1 h2
      have h' := h
      simp [roundTripBelow, Bool.and_eq_true] at h'
      rcases Nat.lt_or_ge p (k + 1) with hlt | hge
      · exact ih h'.2 p h1 (by omega)
      · have : p = k + 1 := by omega
        subst this
        exact h'.1

/-! ## Claims -/

/-- Claim C1 (code_bug evaluation): on the default 24-well format (4 rows),
`int2gridindex` hard-codes row `7` in its `pos % ny == 0` branch instead of
`ny - 1`, so the grid/linear round trip fails: `int2gridindex 4 = (7, 0)`
and `gridindex2int 7 0 = 8 ≠ 4`, although `4` is a valid position of a
constructed format. -/
theorem claim_C1_code_eval :
    PlateFormat.make 24 none none = .ok fmt24 ∧
    int2gridindex fmt24 4 = (7, 0) ∧
    gridindex2int fmt24 7 0 = 8 ∧
    gridRoundTripOk fmt24 4 = false ∧
    gridRoundTripOk fmt96 96 = true := by
  decide

/-- Claim C2 (counterexample): `aspirate` called with both a rack label and
a rack ID emits the rack ID in the first field after the tag and the rack
label in the second — not the shape `A;<rackLabel>;<rackID>;...` the claim
states (which here would be the line `A;Lab;ID;;1;;25;`). -/
theorem claim_C2_counterexample :
    Worklist.default96.aspirate "Lab" "ID" "" 1 "" 25 none none =
      (["A;ID;Lab;;1;;25;\n"], none) ∧
    (["A;ID;Lab;;1;;25;\n"] : List String) ≠ ["A;Lab;ID;;1;;25;\n"] := by
  decide

/-- Claim C2 (amended): for every call to `aspirate` (and likewise
`dispense`) that supplies both a rack label and a rack ID, the emitted
line places the rackID value in the first field after the tag and the
rackLabel value in the second:
`A;<rackID>;<rackLabel>;<rackType>;<position>;<tubeID>;<volume>;<liquidClass>[;<tipMask>]`
(the source passes its arguments to `_transfer_op` in swapped order). -/
theorem claim_C2_amended (w : Worklist) (rl ri rt : String) (p : Int)
    (tb : String) (v : Int) (lc : Option String) (tm : Option Int)
    (_hrl : rl ≠ "") (hri : ri ≠ "") :
    w.aspirate rl ri rt p tb v lc tm =
      (["A;" ++ ri ++ ";" ++ rl ++ ";" ++ rt ++ ";" ++ pyStrInt p ++ ";" ++
        tb ++ ";" ++ pyStrInt v ++ ";" ++ resolveLC w lc ++ tipSuffix tm ++
        "\n"], none) ∧
    w.dispense rl ri rt p tb v lc tm false =
      (["D;" ++ ri ++ ";" ++ rl ++ ";" ++ rt ++ ";" ++ pyStrInt p ++ ";" ++
        tb ++ ";" ++ pyStrInt v ++ ";" ++ resolveLC w lc ++ tipSuffix tm ++
        "\n"], none) := by
  have hcond : ¬(ri = "" ∧ rl = "") := fun hand => hri hand.1
  have hA : ("A;" : String) = "A" ++ ";" := by decide
  have hD : ("D;" : String) = "D" ++ ";" := by decide
  rw [hA, hD]
  cases tm with
  | none =>
      constructor <;>
        simp [Worklist.aspirate, Worklist.dispense, transferOp, hcond,
              pyJoin, tipSuffix, String.append_assoc]
  | some m =>
      constructor <;>
        simp [Worklist.aspirate, Worklist.dispense, transferOp, hcond,
              pyJoin, tipSuffix, String.append_assoc]

/-- Claim C2 witness: the amended field order at a concrete call supplying
both identifiers. -/
theorem claim_C2_amended_witness :
    Worklist.default96.aspirate "L1" "I1" "T" 3 "tb" 50 (some "LC")
      (some 1) =
      (["A;" ++ "I1" ++ ";" ++ "L1" ++ ";" ++ "T" ++ ";" ++ pyStrInt 3 ++
        ";" ++ "tb" ++ ";" ++ pyStrInt 50 ++ ";" ++
        resolveLC Worklist.default96 (some "LC") ++ tipSuffix (some 1) ++
        "\n"], none) :=
  (claim_C2_amended Worklist.default96 "L1" "I1" "T" 3 "tb" 50 (some "LC")
    (some 1) (by decide) (by decide)).1

/-- Claim C3 (code_bug evaluation): conversion does not always reject well 0
and out-of-range positions. On the default 96-well format,
`human2int 'A0'` resolves to the negative position `-7` and returns it
without raising, and `int2human 0` returns `'H1'` without raising
(its range guard `col + 1 > nx or row > ny` misses position `0`). -/
theorem claim_C3_code_eval :
    PlateFormat.make 96 none none = .ok fmt96 ∧
    human2int fmt96 (.str "A0") = .ok (-7) ∧
    int2human fmt96 0 = .ok "H1" ∧
    int2human fmt96 (-7) = .ok "A0" := by
  decide

/-- Claim C4 (code_bug evaluation): `write` does not strip embedded line
breaks — the source discards the results of `line.replace` — so
`write('C; a\nb')` emits text containing two line breaks, not one. -/
theorem claim_C4_code_eval :
    Worklist.write "C; a\nb" = ["C; a\nb\n"] ∧
    countNL "C; a\nb\n" = 2 := by
  decide

/-- Claim C5 (counterexample): worklist operations are not all atomic.
`multidiswithflush` with a missing destination label emits its aspirate
line before the dispense validation fails, so the failed call leaves a
nonempty emission. -/
theorem claim_C5_counterexample :
    Worklist.default96.multidiswithflush "S" 1 "" [2] 10 900 none none
      true true = (["A;;S;;1;;10;\n"], some .worklistError) ∧
    (["A;;S;;1;;10;\n"] : List String) ≠ [] := by
  decide

/-- Claim C5 (amended): the single-line operations validate before any
buffer write and are atomic — an `aspirate` or `dispense` call that
raises emits nothing — but `multidiswithflush` is not atomic: a failure
after its first aspirate (missing destination identifier, or the
destination-count/aspiration-volume assertion) leaves the lines already
emitted in the buffer, as the counterexample shows. -/
theorem claim_C5_amended (w : Worklist) (rl ri rt : String) (p : Int)
    (tb : String) (v : Int) (lc : Option String) (tm : Option Int)
    (wash : Bool) :
    ((w.aspirate rl ri rt p tb v lc tm).2.isSome →
      (w.aspirate rl ri rt p tb v lc tm).1 = []) ∧
    ((w.dispense rl ri rt p tb v lc tm wash).2.isSome →
      (w.dispense rl ri rt p tb v lc tm wash).1 = []) := by
  constructor
  · intro hs
    cases h : transferOp w "A" ri rl rt p tb v lc tm with
    | ok line => simp [Worklist.aspirate, h] at hs
    | error e => simp [Worklist.aspirate, h]
  · intro hs
    cases h : transferOp w "D" ri rl rt p tb v lc tm with
    | ok line => simp [Worklist.dispense, h] at hs
    | error e => simp [Worklist.dispense, h]

/-- Claim C5 witness: an aspirate call given neither rack label nor rack ID
fails and emits nothing. -/
theorem claim_C5_amended_witness :
    (Worklist.default96.aspirate "" "" "" 1 "" 0 none none).1 = [] :=
  (claim_C5_amended Worklist.default96 "" "" "" 1 "" 0 none none
    true).1 (by decide)

/-- Claim C6 (counterexample): the human/linear round trip fails on the
default 1536-well format (32 rows): position 27 has row index 26, and
`int2human` raises `IndexError` on the single-letter alphabet, so
`human2int (int2human 27)` does not recover 27. -/
theorem claim_C6_counterexample :
    PlateFormat.make 1536 none none = .ok fmt1536 ∧
    1 ≤ 27 ∧ 27 ≤ fmt1536.n ∧
    int2human fmt1536 27 = .error .indexError ∧
    roundTripOk fmt1536 27 = false := by
  decide

set_option maxRecDepth 8000 in
/-- Claim C6 (amended): for every plate format constructed with default
dimensions for well count n in {6, 12, 24, 96, 384} — the supported
formats whose row count fits the single-letter alphabet — and every
position p in [1, n], `human2int (int2human p)` recovers p. The 1536-well
format is excluded by the counterexample. -/
theorem claim_C6_amended (n : Nat) (f : PlateFormat)
    (hn : n = 6 ∨ n = 12 ∨ n = 24 ∨ n = 96 ∨ n = 384)
    (hf : PlateFormat.make n none none = .ok f)
    (p : Nat) (h1 : 1 ≤ p) (h2 : p ≤ f.n) :
    roundTripOk f p = true := by
  rcases hn with rfl | rfl | rfl | rfl | rfl
  · have hmk : PlateFormat.make 6 none none = .ok fmt6 := by decide
    have hq := Except.ok.inj (hmk.symm.trans hf)
    subst hq
    exact roundTripBelow_spec fmt6 6 (by decide) p h1 h2
  · have hmk : PlateFormat.make 12 none none = .ok fmt12 := by decide
    have hq := Except.ok.inj (hmk.symm.trans hf)
    subst hq
    exact roundTripBelow_spec fmt12 12 (by decide) p h1 h2
  · have hmk : PlateFormat.make 24 none none = .ok fmt24 := by decide
    have hq := Except.ok.inj (hmk.symm.trans hf)
    subst hq
    exact roundTripBelow_spec fmt24 24 (by decide) p h1 h2
  · have hmk : PlateFormat.make 96 none none = .ok fmt96 := by decide
    have hq := Except.ok.inj (hmk.symm.trans hf)
    subst hq
    exact roundTripBelow_spec fmt96 96 (by decide) p h1 h2
  · have hmk : PlateFormat.make 384 none none = .ok fmt384 := by decide
    have hq := Except.ok.inj (hmk.symm.trans hf)
    subst hq
    exact roundTripBelow_spec fmt384 384 (by decide) p h1 h2

/-- Claim C6 witness: the amended round trip at the 96-well format,
position 42. -/
theorem claim_C6_amended_witness : roundTripOk fmt96 42 = true :=
  claim_C6_amended 96 fmt96 (by decide) (by decide) 42 (by decide) (by decide)

/-- Claim C7: every `transferColumn` call on the default 96-well worklist
(8 rows) with source column c1 and destination column c2 emits exactly 8
aspirate/dispense pairs, addressing source positions `(c1-1)*8+1` through
`(c1-1)*8+8` and destination positions `(c2-1)*8+1` through `(c2-1)*8+8`
in increasing order, and returns `rows - 1 = 7` (the loop variable's
final value, one less than the number of pairs emitted). -/
theorem claim_C7_transferColumn (srcID dstID : String) (c1 c2 v : Int)
    (lc : Option String) (tm : Option Int) (wash : Bool)
    (hs : srcID ≠ "") (hd : dstID ≠ "") :
    Worklist.default96.transferColumn srcID c1 dstID c2 v lc tm wash =
      ((Worklist.default96.aspirate "" srcID "" ((c1 - 1) * 8 + 1) "" v lc tm).1 ++
       (Worklist.default96.dispense "" dstID "" ((c2 - 1) * 8 + 1) "" v lc tm wash).1 ++
       (Worklist.default96.aspirate "" srcID "" ((c1 - 1) * 8 + 2) "" v lc tm).1 ++
       (Worklist.default96.dispense "" dstID "" ((c2 - 1) * 8 + 2) "" v lc tm wash).1 ++
       (Worklist.default96.aspirate "" srcID "" ((c1 - 1) * 8 + 3) "" v lc tm).1 ++
       (Worklist.default96.dispense "" dstID "" ((c2 - 1) * 8 + 3) "" v lc tm wash).1 ++
       (Worklist.default96.aspirate "" srcID "" ((c1 - 1) * 8 + 4) "" v lc tm).1 ++
       (Worklist.default96.dispense "" dstID "" ((c2 - 1) * 8 + 4) "" v lc tm wash).1 ++
       (Worklist.default96.aspirate "" srcID "" ((c1 - 1) * 8 + 5) "" v lc tm).1 ++
       (Worklist.default96.dispense "" dstID "" ((c2 - 1) * 8 + 5) "" v lc tm wash).1 ++
       (Worklist.default96.aspirate "" srcID "" ((c1 - 1) * 8 + 6) "" v lc tm).1 ++
       (Worklist.default96.dispense "" dstID "" ((c2 - 1) * 8 + 6) "" v lc tm wash).1 ++
       (Worklist.default96.aspirate "" srcID "" ((c1 - 1) * 8 + 7) "" v lc tm).1 ++
       (Worklist.default96.dispense "" dstID "" ((c2 - 1) * 8 + 7) "" v lc tm wash).1 ++
       (Worklist.default96.aspirate "" srcID "" ((c1 - 1) * 8 + 8) "" v lc tm).1 ++
       (Worklist.default96.dispense "" dstID "" ((c2 - 1) * 8 + 8) "" v lc tm wash).1,
       .ok 7) := by
  simp only [Worklist.transferColumn, Worklist.default96, tcAux,
             Worklist.aspirate, Worklist.dispense, transferOp]
  simp [hs, hd, pyJoin]
  ring_nf
  exact ⟨trivial, trivial⟩

/-- Claim C7 witness: the concrete column transfer 1 to 1 with volume 5. -/
theorem claim_C7_transferColumn_witness :
    Worklist.default96.transferColumn "s" 1 "d" 1 5 none none true =
      ((Worklist.default96.aspirate "" "s" "" ((1 - 1) * 8 + 1) "" 5 none none).1 ++
       (Worklist.default96.dispense "" "d" "" ((1 - 1) * 8 + 1) "" 5 none none true).1 ++
       (Worklist.default96.aspirate "" "s" "" ((1 - 1) * 8 + 2) "" 5 none none).1 ++
       (Worklist.default96.dispense "" "d" "" ((1 - 1) * 8 + 2) "" 5 none none true).1 ++
       (Worklist.default96.aspirate "" "s" "" ((1 - 1) * 8 + 3) "" 5 none none).1 ++
       (Worklist.default96.dispense "" "d" "" ((1 - 1) * 8 + 3) "" 5 none none true).1 ++
       (Worklist.default96.aspirate "" "s" "" ((1 - 1) * 8 + 4) "" 5 none none).1 ++
       (Worklist.default96.dispense "" "d" "" ((1 - 1) * 8 + 4) "" 5 none none true).1 ++
       (Worklist.default96.aspirate "" "s" "" ((1 - 1) * 8 + 5) "" 5 none none).1 ++
       (Worklist.default96.dispense "" "d" "" ((1 - 1) * 8 + 5) "" 5 none none true).1 ++
       (Worklist.default96.aspirate "" "s" "" ((1 - 1) * 8 + 6) "" 5 none none).1 ++
       (Worklist.default96.dispense "" "d" "" ((1 - 1) * 8 + 6) "" 5 none none true).1 ++
       (Worklist.default96.aspirate "" "s" "" ((1 - 1) * 8 + 7) "" 5 none none).1 ++
       (Worklist.default96.dispense "" "d" "" ((1 - 1) * 8 + 7) "" 5 none none true).1 ++
       (Worklist.default96.aspirate "" "s" "" ((1 - 1) * 8 + 8) "" 5 none none).1 ++
       (Worklist.default96.dispense "" "d" "" ((1 - 1) * 8 + 8) "" 5 none none true).1,
       .ok 7) :=
  claim_C7_transferColumn "s" "d" 1 1 5 none none true (by decide) (by decide)

/-- Claim C8 (counterexample): `str2tuple` does not return `('', None)` for
every text failing to match `[A-Za-z]?[0-9]+` as a whole: `re.match` only
anchors at the start, so the non-matching text `'A1x'` still parses to
`('A', 1)`. -/
theorem claim_C8_counterexample :
    wholeMatch "A1x" = false ∧
    str2tuple "A1x" = ("A", some 1) ∧
    str2tuple "A1x" ≠ ("", none) := by
  decide

/-- Claim C8 (amended): `str2tuple` returns `('', None)` exactly when the
text does not begin with the pattern `[A-Za-z]?[0-9]+` (`re.match`
anchors at the start only, so trailing characters are ignored); and for
every string that does match the pattern as a whole it returns the
uppercased letter (or `''`) and the parsed number. -/
theorem claim_C8_amended (s : String) :
    (str2tuple s = ("", none) ↔ beginsWithPattern s = false) ∧
    (wholeMatch s = true → str2tuple s = specParse s) := by
  obtain ⟨data⟩ := s
  constructor
  · cases data with
    | nil => simp [str2tuple, matchPosition, beginsWithPattern]
    | cons c rest =>
        by_cases hl : isAsciiLetter c
        · cases rest with
          | nil =>
              simp [str2tuple, matchPosition, beginsWithPattern, hl,
                    List.takeWhile]
          | cons d rest2 =>
              by_cases hd : isDigitCh d
              · simp [str2tuple, matchPosition, beginsWithPattern, hl, hd,
                      List.takeWhile]
              · simp [str2tuple, matchPosition, beginsWithPattern, hl, hd,
                      List.takeWhile]
        · by_cases hc : isDigitCh c
          · simp [str2tuple, matchPosition, beginsWithPattern, hl, hc,
                  List.takeWhile]
          · simp [str2tuple, matchPosition, beginsWithPattern, hl, hc,
                  List.takeWhile]
  · intro hw
    cases data with
    | nil => simp [wholeMatch] at hw
    | cons c rest =>
        by_cases hl : isAsciiLetter c
        · simp [wholeMatch, hl] at hw
          obtain ⟨hne, hall⟩ := hw
          have ht : rest.takeWhile isDigitCh = rest :=
            List.takeWhile_eq_self_iff.mpr hall
          cases rest with
          | nil => simp at hne
          | cons d rest2 =>
              simp [str2tuple, matchPosition, hl, ht, specParse]
        · simp [wholeMatch, hl] at hw
          have ht : (c :: rest).takeWhile isDigitCh = c :: rest :=
            List.takeWhile_eq_self_iff.mpr (by
              intro a ha
              rcases List.mem_cons.mp ha with rfl | hmem
              · exact hw.1
              · exact hw.2 a hmem)
          simp [str2tuple, matchPosition, hl, ht, specParse]

/-- Claim C8 witness: the amended parse at the fully matching text 'b12'. -/
theorem claim_C8_amended_witness : str2tuple "b12" = ("B", some 12) := by
  have h := (claim_C8_amended "b12").2 (by decide)
  rw [h]
  decide

/-- Claim C9: an `aspirate` call followed by a `dispense` call with `wash`
left at its default `True` appends exactly three lines, in order: one
line tagged `A;`, one line tagged `D;`, and one standalone `W;` line;
with `wash=False` the `W;` line is omitted. The rack identifiers are
supplied and the free-text fields contain no line break, so each emitted
command is a single line ending in exactly one line break. -/
theorem claim_C9_lines (w : Worklist) (rl1 ri1 rt1 tb1 rl2 ri2 rt2 tb2 : String)
    (p1 p2 v1 v2 : Int) (lc1 lc2 : Option String) (tm1 tm2 : Option Int)
    (hA : ¬(rl1 = "" ∧ ri1 = "")) (hD : ¬(rl2 = "" ∧ ri2 = ""))
    (h1 : countNL rl1 = 0) (h2 : countNL ri1 = 0) (h3 : countNL rt1 = 0)
    (h4 : countNL tb1 = 0) (h5 : countNL rl2 = 0) (h6 : countNL ri2 = 0)
    (h7 : countNL rt2 = 0) (h8 : countNL tb2 = 0)
    (h9 : countNL (resolveLC w lc1) = 0)
    (h10 : countNL (resolveLC w lc2) = 0) :
    ∃ a d : String,
      w.aspirate rl1 ri1 rt1 p1 tb1 v1 lc1 tm1 = ([a], none) ∧
      w.dispense rl2 ri2 rt2 p2 tb2 v2 lc2 tm2 true = ([d, "W;\n"], none) ∧
      w.dispense rl2 ri2 rt2 p2 tb2 v2 lc2 tm2 false = ([d], none) ∧
      (∃ ba, a = "A;" ++ ba ++ "\n" ∧ countNL ba = 0) ∧
      (∃ bd, d = "D;" ++ bd ++ "\n" ∧ countNL bd = 0) ∧
      countNL a = 1 ∧ countNL d = 1 := by
  have hA' : ¬(ri1 = "" ∧ rl1 = "") := fun hand => hA ⟨hand.2, hand.1⟩
  have hD' : ¬(ri2 = "" ∧ rl2 = "") := fun hand => hD ⟨hand.2, hand.1⟩
  obtain ⟨ba, hta, hba⟩ :=
    transferOp_line w "A" ri1 rl1 rt1 p1 tb1 v1 lc1 tm1 hA' h2 h1 h3 h4 h9
  obtain ⟨bd, htd, hbd⟩ :=
    transferOp_line w "D" ri2 rl2 rt2 p2 tb2 v2 lc2 tm2 hD' h6 h5 h7 h8 h10
  have hAs : ("A;" : String) = "A" ++ ";" := by decide
  have hDs : ("D;" : String) = "D" ++ ";" := by decide
  have hnla : countNL ("A;" ++ ba ++ "\n") = 1 := by
    rw [countNL_append, countNL_append, hba]
    decide
  have hnld : countNL ("D;" ++ bd ++ "\n") = 1 := by
    rw [countNL_append, countNL_append, hbd]
    decide
  refine ⟨"A;" ++ ba ++ "\n", "D;" ++ bd ++ "\n", ?_, ?_, ?_,
    ⟨ba, rfl, hba⟩, ⟨bd, rfl, hbd⟩, hnla, hnld⟩
  · rw [hAs]
    simp [Worklist.aspirate, hta, String.append_assoc]
  · rw [hDs]
    simp [Worklist.dispense, htd, String.append_assoc]
  · rw [hDs]
    simp [Worklist.dispense, htd, String.append_assoc]

/-- Claim C9 witness: the spec's concrete scenario, aspirate from Src1
well 1 then dispense into Dst1 well 96, 25 microliters. -/
theorem claim_C9_lines_witness :
    ∃ a d : String,
      Worklist.default96.aspirate "" "Src1" "" 1 "" 25 none none =
        ([a], none) ∧
      Worklist.default96.dispense "" "Dst1" "" 96 "" 25 none none true =
        ([d, "W;\n"], none) ∧
      Worklist.default96.dispense "" "Dst1" "" 96 "" 25 none none false =
        ([d], none) ∧
      (∃ ba, a = "A;" ++ ba ++ "\n" ∧ countNL ba = 0) ∧
      (∃ bd, d = "D;" ++ bd ++ "\n" ∧ countNL bd = 0) ∧
      countNL a = 1 ∧ countNL d = 1 :=
  claim_C9_lines Worklist.default96 "" "Src1" "" "" "" "Dst1" "" "" 1 96 25 25
    none none none none (by decide) (by decide) (by decide) (by decide)
    (by decide) (by decide) (by decide) (by decide) (by decide) (by decide)
    (by decide) (by decide)

/-- Claim C10: `multidiswithflush` with `volume = 0` (its default) raises
`ZeroDivisionError` at the tip-volume reduction `tipVolume % volume`
before anything is written, for every destination list and every other
argument; it raises no `WorklistException` and emits no line. -/
theorem claim_C10_multidis_zero_volume (w : Worklist) (srcLabel : String)
    (srcPos : Int) (dstLabel : String) (dstPos : List Int) (tipVolume : Int)
    (liquidClass : Option String) (tipMask : Option Int)
    (wash flushTips : Bool) :
    w.multidiswithflush srcLabel srcPos dstLabel dstPos 0 tipVolume
      liquidClass tipMask wash flushTips = ([], some .zeroDivisionError) := by
  simp [Worklist.multidiswithflush]

end Evoware
